import Mathlib

/-!
Verification of the SentinelSweep-SOC core pipeline.

This file is a shallow embedding, in Lean 4, of the analytical core of the
SentinelSweep-SOC repository: the risk-scoring engine
(src/src/risk_engine.py), the service triage engine
(src/src/triage_engine.py), the scanner's result assembly and CIDR target
resolution (src/src/scanner.py), and the reporter's stable content hash
(src/src/reporter.py).  Network effects (socket probes, banner reads) are
represented by explicit parameters holding their outcome; wall-clock
timestamps are not modelled.  Python machine-level details (dict key order,
string operations) are modelled over Lean lists and strings.
-/

namespace SentinelSweep

/- ===================== risk_engine.py ===================== -/

/-- One value of the static MITRE reference table in src/src/risk_engine.py:
the dict literal MITRE_ATTACK_MAP maps a port to technique, tactic, service
name and base severity. -/
structure MitreEntry where
  technique : String
  tactic : String
  name : String
  risk : String
deriving DecidableEq, Repr

/-- The static table MITRE_ATTACK_MAP of src/src/risk_engine.py, as an
association list from port number to entry (a Python dict with int keys). -/
def MITRE_ATTACK_MAP : List (Nat × MitreEntry) :=
  [ (21, ⟨"T1071.001", "Command and Control", "FTP", "MEDIUM"⟩),
    (22, ⟨"T1021.004", "Lateral Movement", "SSH", "HIGH"⟩),
    (23, ⟨"T1071.001", "Command and Control", "Telnet", "HIGH"⟩),
    (25, ⟨"T1071.003", "Command and Control", "SMTP", "MEDIUM"⟩),
    (80, ⟨"T1190", "Initial Access", "HTTP", "MEDIUM"⟩),
    (443, ⟨"T1190", "Initial Access", "HTTPS", "MEDIUM"⟩),
    (445, ⟨"T1021.002", "Lateral Movement", "SMB", "CRITICAL"⟩),
    (3389, ⟨"T1021.001", "Lateral Movement", "RDP", "CRITICAL"⟩),
    (5900, ⟨"T1021.005", "Lateral Movement", "VNC", "HIGH"⟩),
    (8080, ⟨"T1190", "Initial Access", "HTTP-Alt", "MEDIUM"⟩),
    (8443, ⟨"T1190", "Initial Access", "HTTPS-Alt", "MEDIUM"⟩) ]

/-- SOCRiskEngine.risk_scores: the severity-weight dict
LOW=1, MEDIUM=3, HIGH=6, CRITICAL=10.  The Python dict raises on any other
key; every severity stored in MITRE_ATTACK_MAP is one of the four, so the
total function below (with an unreachable 0 default) agrees with the dict on
all keys that ever reach it. -/
def risk_scores (s : String) : Nat :=
  if s = "LOW" then 1
  else if s = "MEDIUM" then 3
  else if s = "HIGH" then 6
  else if s = "CRITICAL" then 10
  else 0

/-- One element of the mitre_findings list built by
SOCRiskEngine.assess_exposure. -/
structure Finding where
  port : Nat
  technique : String
  tactic : String
  service : String
  risk : String
deriving DecidableEq, Repr

/-- The optional triage_data dict consumed by assess_exposure.  Each field
models presence/absence of the corresponding dict key; the details payload
is carried opaquely as an association list. -/
structure TriageData where
  verification : Option String
  reliability : Option String
  details : Option (List (String × String))
  final_risk : Option String
  adjustment_reason : Option String
deriving DecidableEq, Repr

/-- The empty triage dict used when assess_exposure receives no (or a falsy)
triage_data argument. -/
def emptyTriage : TriageData :=
  ⟨none, none, none, none, none⟩

/-- The enhanced_finding dict returned by SOCRiskEngine.assess_exposure.
The wall-clock timestamp field is not modelled; transferable_data is
represented by its two ticket fields (siem_ready is constantly true). -/
structure Assessment where
  ip : String
  open_ports : List Nat
  initial_risk : String
  risk_score : Nat
  verification : String
  reliability : String
  mitre_findings : List Finding
  asset_owner : String
  network_segment : String
  triage_details : List (String × String)
  ticket_priority : String
  assignment_group : String
  recommendations : List String
  true_risk : String
  risk_adjusted : Bool
  adjustment_reason : Option String
deriving DecidableEq, Repr

/-- str.startswith for a Lean string: character-list comparison. -/
def isPre : List Char → List Char → Bool
  | [], _ => true
  | _ :: _, [] => false
  | a :: as, b :: bs => a = b && isPre as bs

/-- Python str.startswith(pat) on s. -/
def startsWithStr (s pat : String) : Bool :=
  isPre pat.data s.data

/-- SOCRiskEngine._determine_network_segment. -/
def determine_network_segment (ip : String) : String :=
  if startsWithStr ip "192.168.10." then "Internal_Management"
  else if startsWithStr ip "192.168.20." then "User_Network"
  else if startsWithStr ip "10.0." then "Server_Farm"
  else "General_Network"

/-- The body of the for-loop of assess_exposure: one step of the
accumulation of (risk_score, mitre_findings, recommendations) over a single
port of open_ports.  Ports absent from MITRE_ATTACK_MAP leave the
accumulator unchanged. -/
def assessStep (open_ports : List Nat) (acc : Nat × List Finding × List String)
    (port : Nat) : Nat × List Finding × List String :=
  match MITRE_ATTACK_MAP.lookup port with
  | none => acc
  | some m =>
    let score := acc.1 + risk_scores m.risk
    let findings := acc.2.1 ++ [⟨port, m.technique, m.tactic, m.name, m.risk⟩]
    let recs := acc.2.2 ++
      (if port = 3389 then ["Restrict RDP to VPN or jump host"]
       else if port = 22 then ["Implement SSH key authentication only"]
       else if port = 80 ∧ ¬ (443 ∈ open_ports) then ["Redirect HTTP to HTTPS"]
       else if port = 445 then ["Restrict SMB to internal subnets only"]
       else [])
    (score, findings, recs)

/-- The threshold derivation of the initial risk tier from the accumulated
risk_score in assess_exposure. -/
def thresholdRisk (risk_score : Nat) : String :=
  if risk_score ≥ 15 then "CRITICAL"
  else if risk_score ≥ 10 then "HIGH"
  else if risk_score ≥ 5 then "MEDIUM"
  else "LOW"

/-- SOCRiskEngine.assess_exposure of src/src/risk_engine.py.  triage_data is
the optional evidence dict (None modelled as Option.none; Python also
replaces a falsy, i.e. empty, dict by an empty one, which the all-none
TriageData reproduces field by field). -/
def assess_exposure (ip : String) (open_ports : List Nat)
    (triage_data : Option TriageData) : Assessment :=
  let port_details := triage_data.getD emptyTriage
  let acc := open_ports.foldl (assessStep open_ports) (0, [], [])
  let risk_score := acc.1
  let mitre_findings := acc.2.1
  let recs0 := acc.2.2
  let compound := 3389 ∈ open_ports ∧ 445 ∈ open_ports
  let initial_risk_level :=
    if compound then "CRITICAL" else thresholdRisk risk_score
  let recommendations :=
    if compound then recs0 ++ ["CRITICAL: Both RDP and SMB exposed"]
    else recs0
  match port_details.final_risk with
  | some fr =>
    { ip := ip
      open_ports := open_ports
      initial_risk := initial_risk_level
      risk_score := risk_score
      verification := port_details.verification.getD "Standard port detection"
      reliability := port_details.reliability.getD "MEDIUM"
      mitre_findings := mitre_findings
      asset_owner := "Unknown"
      network_segment := determine_network_segment ip
      triage_details := port_details.details.getD []
      ticket_priority := initial_risk_level
      assignment_group := "Network-Security"
      recommendations := recommendations
      true_risk := fr
      risk_adjusted := true
      adjustment_reason :=
        some (port_details.adjustment_reason.getD "Contextual triage applied") }
  | none =>
    { ip := ip
      open_ports := open_ports
      initial_risk := initial_risk_level
      risk_score := risk_score
      verification := port_details.verification.getD "Standard port detection"
      reliability := port_details.reliability.getD "MEDIUM"
      mitre_findings := mitre_findings
      asset_owner := "Unknown"
      network_segment := determine_network_segment ip
      triage_details := port_details.details.getD []
      ticket_priority := initial_risk_level
      assignment_group := "Network-Security"
      recommendations := recommendations
      true_risk := initial_risk_level
      risk_adjusted := false
      adjustment_reason := none }

/- ===================== IPv4 parsing (Python ipaddress) ===================== -/

/-- Is c an ASCII decimal digit. -/
def isDigitCh (c : Char) : Bool :=
  '0' ≤ c && c ≤ '9'

/-- Numeric value of a list of decimal digit characters (the caller has
already checked that every character is a digit and the list is nonempty). -/
def digitsVal (cs : List Char) : Nat :=
  cs.foldl (fun acc c => acc * 10 + (c.toNat - '0'.toNat)) 0

/-- Split a character list on a separator character, Python str.split
semantics (keeps empty fields). -/
def splitOn (sep : Char) : List Char → List (List Char)
  | [] => [[]]
  | c :: rest =>
    let r := splitOn sep rest
    if c = sep then [] :: r
    else
      match r with
      | [] => [[c]]
      | g :: gs => (c :: g) :: gs

/-- ipaddress._parse_octet: one dotted-quad octet.  Only decimal digits, at
most three characters, no leading zero (unless the octet is exactly "0"),
value at most 255. -/
def parseOctet (cs : List Char) : Option Nat :=
  if cs = [] then none
  else if ¬ cs.all isDigitCh then none
  else if cs.length > 3 then none
  else if cs.length > 1 ∧ cs.head? = some '0' then none
  else if digitsVal cs ≤ 255 then some (digitsVal cs) else none

/-- ipaddress._ip_int_from_string for IPv4: a dotted quad of four octets,
returned as the 32-bit address value. -/
def parseIPv4 (cs : List Char) : Option Nat :=
  match splitOn '.' cs with
  | [a, b, c, d] =>
    match parseOctet a, parseOctet b, parseOctet c, parseOctet d with
    | some x, some y, some z, some w => some (((x * 256 + y) * 256 + z) * 256 + w)
    | _, _, _, _ => none
  | _ => none

/-- The 32-bit netmask with p leading one bits. -/
def netmaskOf (p : Nat) : Nat :=
  2 ^ 32 - 2 ^ (32 - p)

/-- The 32-bit hostmask with 32-p trailing one bits. -/
def hostmaskOf (p : Nat) : Nat :=
  2 ^ (32 - p) - 1

/-- ipaddress IPv4Network._make_netmask on the part after the slash: first a
plain decimal whole number 0..32 (leading zeros are accepted there, since
int() accepts them after the digits-only check); otherwise a dotted-quad
netmask, otherwise a dotted-quad hostmask. -/
def parsePlen (cs : List Char) : Option Nat :=
  if cs ≠ [] ∧ cs.all isDigitCh then
    if digitsVal cs ≤ 32 then some (digitsVal cs) else none
  else
    match parseIPv4 cs with
    | none => none
    | some m =>
      match (List.range 33).find? (fun p => m = netmaskOf p) with
      | some p => some p
      | none => (List.range 33).find? (fun p => m = hostmaskOf p)

/-- ipaddress.ip_network(cidr, strict=False) restricted to IPv4: the
address/plen split, with host bits masked off (strict=False).  A bare
address means a /32 network.  Returns the (network address, plen) pair, or
none where Python raises ValueError.  IPv6 inputs are outside this model. -/
def parseNetwork (s : String) : Option (Nat × Nat) :=
  match splitOn '/' s.data with
  | [a] => (parseIPv4 a).map (fun ip => (ip, 32))
  | [a, p] =>
    match parseIPv4 a, parsePlen p with
    | some ip, some plen =>
      some (ip / 2 ^ (32 - plen) * 2 ^ (32 - plen), plen)
    | _, _ => none
  | _ => none

/-- Does the address lie in the network given by (net, plen). -/
def inNet (addr net plen : Nat) : Bool :=
  addr / 2 ^ (32 - plen) = net / 2 ^ (32 - plen)

/-- ipaddress IPv4Address.is_private: membership in the iana-ipv4
special-purpose private-network list. -/
def ipIsPrivate (a : Nat) : Bool :=
  inNet a 0 8 ||
  inNet a (10 * 2 ^ 24) 8 ||
  inNet a (127 * 2 ^ 24) 8 ||
  inNet a (169 * 2 ^ 24 + 254 * 2 ^ 16) 16 ||
  inNet a (172 * 2 ^ 24 + 16 * 2 ^ 16) 12 ||
  inNet a (192 * 2 ^ 24) 29 ||
  inNet a (192 * 2 ^ 24 + 170) 31 ||
  inNet a (192 * 2 ^ 24 + 2 * 2 ^ 8) 24 ||
  inNet a (192 * 2 ^ 24 + 168 * 2 ^ 16) 16 ||
  inNet a (198 * 2 ^ 24 + 18 * 2 ^ 16) 15 ||
  inNet a (198 * 2 ^ 24 + 51 * 2 ^ 16 + 100 * 2 ^ 8) 24 ||
  inNet a (203 * 2 ^ 24 + 113 * 2 ^ 8) 24 ||
  inNet a (240 * 2 ^ 24) 4 ||
  inNet a (2 ^ 32 - 1) 32

/- ===================== triage_engine.py ===================== -/

/-- Python substring test (needle in hay) over character lists. -/
def hasSub (needle : List Char) : List Char → Bool
  | [] => needle.isEmpty
  | c :: rest => isPre needle (c :: rest) || hasSub needle rest

/-- Python needle in hay on strings. -/
def strIn (needle hay : String) : Bool :=
  hasSub needle.data hay.data

/-- Python str.upper restricted to ASCII case mapping (the banner keywords
matched after upper-casing are pure ASCII). -/
def upperStr (s : String) : String :=
  ⟨s.data.map Char.toUpper⟩

/-- TriageEngine._guess_service of src/src/triage_engine.py. -/
def guess_service (port : Nat) : String :=
  if port = 22 then "SSH"
  else if port = 3389 then "RDP"
  else if port = 80 then "HTTP"
  else if port = 443 then "HTTPS"
  else if port = 445 then "SMB"
  else if port = 21 then "FTP"
  else if port = 23 then "Telnet"
  else if port = 25 then "SMTP"
  else if port = 3306 then "MySQL"
  else if port = 5432 then "PostgreSQL"
  else if port = 27017 then "MongoDB"
  else "Port-" ++ toString port

/-- TriageEngine._get_network_context: ipaddress.ip_address(ip).is_private
classification, with the malformed-input fallback "Unknown".  IPv6
addresses are outside this model (no claim bears on them). -/
def get_network_context (ip : String) : String :=
  match parseIPv4 ip.data with
  | none => "Unknown"
  | some a => if ipIsPrivate a then "Internal_Network" else "External_Network"

/-- TriageEngine._default_risk: the port-class base tier, downgraded from
HIGH to MEDIUM on internal networks. -/
def default_risk (port : Nat) (ip : String) : String :=
  let base :=
    if port ∈ [21, 23, 445, 3389] then "HIGH"
    else if port ∈ [22, 80, 25, 3306, 5432] then "MEDIUM"
    else if port ∈ [443] then "LOW"
    else "MEDIUM"
  if get_network_context ip = "Internal_Network" ∧ base = "HIGH" then "MEDIUM"
  else base

/-- The evidence dict returned by TriageEngine.triage_service.  The Python
code stores final_risk as a plain string; the field is Option-typed here
because the specification's ServiceEvidence declares it optional, and the
claims talk about its absence. -/
structure ServiceEvidence where
  ip : String
  port : Nat
  service_guess : String
  banner : Option String
  verification : String
  reliability : String
  details : List (String × String)
  final_risk : Option String
  adjustment_reason : String
  checks_passed : List String
  checks_failed : List String
  network_context : String
deriving DecidableEq, Repr

/-- TriageEngine.triage_service of src/src/triage_engine.py.  The outcome
of the socket-level _grab_banner call is passed in as bannerOutcome: none
models every connection failure, timeout or socket error (the bare except
in _grab_banner returns None), as well as an empty received banner (which
_grab_banner also maps to None).  A some "" outcome is additionally mapped
to the no-banner behaviour, mirroring the falsy test `if banner:`. -/
def triage_service (ip : String) (port : Nat) (bannerOutcome : Option String) :
    ServiceEvidence :=
  let base : ServiceEvidence :=
    { ip := ip
      port := port
      service_guess := guess_service port
      banner := none
      verification := "Port detection"
      reliability := "MEDIUM"
      details := []
      final_risk := some (default_risk port ip)
      adjustment_reason := "Initial assessment"
      checks_passed := []
      checks_failed := []
      network_context := get_network_context ip }
  match bannerOutcome with
  | none => base
  | some banner =>
    if banner = "" then base
    else
      let b1 := { base with
        banner := some banner
        verification := "Banner: " ++ String.mk (banner.data.take 50) ++ "..." }
      if port = 3389 ∧ strIn "NLA" (upperStr banner) then
        { b1 with final_risk := some "MEDIUM"
                  adjustment_reason := "RDP with NLA detected" }
      else if port = 22 ∧ strIn "SSH-2.0" banner then
        if get_network_context ip = "Internal_Network" then
          { b1 with final_risk := some "MEDIUM"
                    adjustment_reason := "SSH version detected" }
        else
          { b1 with final_risk := some "HIGH"
                    adjustment_reason := "SSH version detected" }
      else if port = 80 ∧ (strIn "It works" banner || strIn "Welcome" banner) then
        { b1 with final_risk := some "MEDIUM"
                  adjustment_reason := "Default web page detected" }
      else b1

/- ===================== scanner.py ===================== -/

/-- DefenderSafeScanner.scan_host of src/src/scanner.py.  One probe is
submitted per element of ports; isOpen gives each probe's outcome (the
result of safe_tcp_connect, where a timeout or socket error counts as
closed).  as_completed yields the probes in a non-deterministic first-to-
finish order, modelled by the explicit completion order argument, a
permutation of ports; open ports are appended in that order and the list is
finally sorted.  delay is the inter-probe sleep; it affects timing only. -/
def scan_host (isOpen : String → Nat → Bool) (ip : String) (ports : List Nat)
    (delay : Rat) (completed : List Nat) : List Nat :=
  let _ := delay
  let _ := ports
  List.insertionSort (fun a b : Nat => a ≤ b) (completed.filter (isOpen ip))

/-- str(IPv4Address): the dotted-quad rendering of a 32-bit address. -/
def ipToString (a : Nat) : String :=
  toString (a / 2 ^ 24 % 256) ++ "." ++ toString (a / 2 ^ 16 % 256) ++ "." ++
    toString (a / 2 ^ 8 % 256) ++ "." ++ toString (a % 256)

/-- ipaddress IPv4Network.hosts() for the network (net, plen): all
addresses of the network except the network address itself and the
broadcast address; a /31 yields both of its addresses and a /32 its single
address (the documented special cases). -/
def hostsRange (net plen : Nat) : List Nat :=
  if plen = 32 then [net]
  else if plen = 31 then [net, net + 1]
  else
    let size := 2 ^ (32 - plen)
    ((List.range size).map (fun i => net + i)).filter
      (fun a => a ≠ net ∧ a ≠ net + size - 1)

/-- DefenderSafeScanner.validate_cidr of src/src/scanner.py: expand the
CIDR string into the list of usable host addresses, returning the empty
list where ipaddress.ip_network raises ValueError. -/
def validate_cidr (s : String) : List String :=
  match parseNetwork s with
  | none => []
  | some (net, plen) => (hostsRange net plen).map ipToString

/- ===================== reporter.py: stable_hash ===================== -/

/-- JSON values, the serializable data fed to reporter.stable_hash.  A dict
is an association list of string keys in insertion order; a Python dict
never holds a duplicate key. -/
inductive Json where
  | null : Json
  | bool (b : Bool) : Json
  | num (n : Int) : Json
  | str (s : String) : Json
  | arr (elems : List Json) : Json
  | obj (entries : List (String × Json)) : Json

/-- Ordering of object entries by key, the comparison used when json.dumps
sorts a dict's items (sort_keys=True; dict keys are unique, so the
value components never take part in the comparison). -/
def keyLE (p q : String × Json) : Prop :=
  p.1 ≤ q.1

instance : DecidableRel keyLE :=
  fun p q => inferInstanceAs (Decidable (p.1 ≤ q.1))

instance : IsTotal (String × Json) keyLE :=
  ⟨fun a b => le_total a.1 b.1⟩

instance : IsTrans (String × Json) keyLE :=
  ⟨fun _ _ _ hab hbc => le_trans hab hbc⟩

/-- Sort a dict's items by key (Python sorted(dct.items()) inside the
json encoder; a stable sort, modelled by insertion sort). -/
def sortEntries (l : List (String × Json)) : List (String × Json) :=
  l.insertionSort keyLE

mutual

/-- Recursively sort every object's entries by key: the canonical form that
json.dumps(data, sort_keys=True) serializes. -/
def canon : Json → Json
  | .null => .null
  | .bool b => .bool b
  | .num n => .num n
  | .str s => .str s
  | .arr es => .arr (canonList es)
  | .obj l => .obj (sortEntries (canonEntries l))

/-- canon mapped over an array's elements. -/
def canonList : List Json → List Json
  | [] => []
  | e :: es => canon e :: canonList es

/-- canon mapped over an object's values. -/
def canonEntries : List (String × Json) → List (String × Json)
  | [] => []
  | (k, v) :: t => (k, canon v) :: canonEntries t

end

/-- Lower-case hexadecimal digit. -/
def hexDigit (n : Nat) : Char :=
  if n < 10 then Char.ofNat ('0'.toNat + n) else Char.ofNat ('a'.toNat + n - 10)

/-- Four hex digits of a 16-bit value. -/
def hex4 (n : Nat) : List Char :=
  [hexDigit (n / 4096 % 16), hexDigit (n / 256 % 16), hexDigit (n / 16 % 16),
    hexDigit (n % 16)]

/-- The json encoder's escaping of one character with ensure_ascii: the two
JSON metacharacters, the named control escapes, \uXXXX for the remaining
characters outside the printable ASCII range (with surrogate pairs beyond
the basic plane). -/
def escChar (c : Char) : List Char :=
  if c = '"' then ['\\', '"']
  else if c = '\\' then ['\\', '\\']
  else if c = '\n' then ['\\', 'n']
  else if c = '\r' then ['\\', 'r']
  else if c = '\t' then ['\\', 't']
  else if c.toNat = 8 then ['\\', 'b']
  else if c.toNat = 12 then ['\\', 'f']
  else if c.toNat < 32 ∨ c.toNat ≥ 127 then
    if c.toNat < 65536 then '\\' :: 'u' :: hex4 c.toNat
    else
      let n := c.toNat - 65536
      ('\\' :: 'u' :: hex4 (55296 + n / 1024)) ++ ('\\' :: 'u' :: hex4 (56320 + n % 1024))
  else [c]

/-- The json encoder's rendering of a string literal. -/
def jstring (s : String) : String :=
  ⟨'"' :: (s.data.map escChar).flatten ++ ['"']⟩

mutual

/-- json.dumps body on an already key-sorted value, with the default
separators (", " and ": "). -/
def serialize : Json → String
  | .null => "null"
  | .bool b => if b then "true" else "false"
  | .num n => toString n
  | .str s => jstring s
  | .arr es => "[" ++ serializeList es ++ "]"
  | .obj l => "\x7b" ++ serializeEntries l ++ "\x7d"

/-- Comma-joined serialization of array elements. -/
def serializeList : List Json → String
  | [] => ""
  | [e] => serialize e
  | e :: e2 :: es => serialize e ++ ", " ++ serializeList (e2 :: es)

/-- Comma-joined serialization of object entries. -/
def serializeEntries : List (String × Json) → String
  | [] => ""
  | [(k, v)] => jstring k ++ ": " ++ serialize v
  | (k, v) :: p :: t => jstring k ++ ": " ++ serialize v ++ ", " ++ serializeEntries (p :: t)

end

/-- json.dumps(data, sort_keys=True): the encoder sorts each dict's items
as it serializes, rendered here as the canonicalization pass followed by
the plain serializer. -/
def dumps_sorted (x : Json) : String :=
  serialize (canon x)

/-- UTF-8 bytes of one character (str.encode()). -/
def utf8Char (c : Char) : List Nat :=
  let n := c.toNat
  if n < 128 then [n]
  else if n < 2048 then [192 + n / 64, 128 + n % 64]
  else if n < 65536 then [224 + n / 4096, 128 + n / 64 % 64, 128 + n % 64]
  else [240 + n / 262144, 128 + n / 4096 % 64, 128 + n / 64 % 64, 128 + n % 64]

/-- str.encode(): UTF-8 bytes of a string. -/
def utf8Encode (s : String) : List Nat :=
  (s.data.map utf8Char).flatten

/- SHA-256 (hashlib.sha256), over byte lists as Nat values. -/

/-- Right rotation of a 32-bit word. -/
def rotr (n w : Nat) : Nat :=
  ((w >>> n) ||| (w <<< (32 - n))) % 2 ^ 32

/-- SHA-256 big sigma 0. -/
def bSig0 (w : Nat) : Nat :=
  rotr 2 w ^^^ rotr 13 w ^^^ rotr 22 w

/-- SHA-256 big sigma 1. -/
def bSig1 (w : Nat) : Nat :=
  rotr 6 w ^^^ rotr 11 w ^^^ rotr 25 w

/-- SHA-256 small sigma 0. -/
def sSig0 (w : Nat) : Nat :=
  rotr 7 w ^^^ rotr 18 w ^^^ (w >>> 3)

/-- SHA-256 small sigma 1. -/
def sSig1 (w : Nat) : Nat :=
  rotr 17 w ^^^ rotr 19 w ^^^ (w >>> 10)

/-- SHA-256 choice function. -/
def chF (x y z : Nat) : Nat :=
  (x &&& y) ^^^ ((x ^^^ (2 ^ 32 - 1)) &&& z)

/-- SHA-256 majority function. -/
def majF (x y z : Nat) : Nat :=
  (x &&& y) ^^^ (x &&& z) ^^^ (y &&& z)

/-- The 64 SHA-256 round constants, in decimal. -/
def shaK : List Nat :=
  [1116352408, 1899447441, 3049323471, 3921009573, 961987163,
   1508970993, 2453635748, 2870763221, 3624381080, 310598401,
   607225278, 1426881987, 1925078388, 2162078206, 2614888103,
   3248222580, 3835390401, 4022224774, 264347078, 604807628,
   770255983, 1249150122, 1555081692, 1996064986, 2554220882,
   2821834349, 2952996808, 3210313671, 3336571891, 3584528711,
   113926993, 338241895, 666307205, 773529912, 1294757372,
   1396182291, 1695183700, 1986661051, 2177026350, 2456956037,
   2730485921, 2820302411, 3259730800, 3345764771, 3516065817,
   3600352804, 4094571909, 275423344, 430227734, 506948616,
   659060556, 883997877, 958139571, 1322822218, 1537002063,
   1747873779, 1955562222, 2024104815, 2227730452, 2361852424,
   2428436474, 2756734187, 3204031479, 3329325298]

/-- The eight 32-bit working variables of the SHA-256 state. -/
structure Hash8 where
  a : Nat
  b : Nat
  c : Nat
  d : Nat
  e : Nat
  f : Nat
  g : Nat
  h : Nat
deriving Repr

/-- Big-endian byte rendering of n on k bytes. -/
def bytesBE (k n : Nat) : List Nat :=
  (List.range k).map (fun i => n / 2 ^ (8 * (k - 1 - i)) % 256)

/-- SHA-256 padding: a 0x80 byte, zeros to 56 mod 64, and the bit length on
eight big-endian bytes. -/
def padMessage (msg : List Nat) : List Nat :=
  let len := msg.length
  let padZeros := (119 - len % 64) % 64
  msg ++ [128] ++ List.replicate padZeros 0 ++ bytesBE 8 (len * 8)

/-- Combine bytes into big-endian 32-bit words. -/
def toWords : List Nat → List Nat
  | a :: b :: c :: d :: rest => (((a * 256 + b) * 256 + c) * 256 + d) :: toWords rest
  | _ => []

/-- Split a word list into 16-word blocks. -/
def chunk16 : List Nat → List (List Nat)
  | [] => []
  | x :: xs => (x :: xs).take 16 :: chunk16 (xs.drop 15)
termination_by l => l.length
decreasing_by
  simp only [List.length_cons, List.length_drop]
  omega

/-- Extend a 16-word block to the 64-word message schedule. -/
def extendWords (ws : List Nat) : List Nat :=
  (List.range 48).foldl
    (fun w _ =>
      let n := w.length
      w ++ [(sSig1 (w.getD (n - 2) 0) + w.getD (n - 7) 0 +
             sSig0 (w.getD (n - 15) 0) + w.getD (n - 16) 0) % 2 ^ 32])
    ws

/-- One SHA-256 round on the working variables. -/
def roundStep (st : Hash8) (kw : Nat × Nat) : Hash8 :=
  let t1 := (st.h + bSig1 st.e + chF st.e st.f st.g + kw.1 + kw.2) % 2 ^ 32
  let t2 := (bSig0 st.a + majF st.a st.b st.c) % 2 ^ 32
  ⟨(t1 + t2) % 2 ^ 32, st.a, st.b, st.c, (st.d + t1) % 2 ^ 32, st.e, st.f, st.g⟩

/-- Compression of one 16-word block into the running hash state. -/
def compressBlock (hs : Hash8) (ws : List Nat) : Hash8 :=
  let st := (shaK.zip (extendWords ws)).foldl roundStep hs
  ⟨(hs.a + st.a) % 2 ^ 32, (hs.b + st.b) % 2 ^ 32, (hs.c + st.c) % 2 ^ 32,
   (hs.d + st.d) % 2 ^ 32, (hs.e + st.e) % 2 ^ 32, (hs.f + st.f) % 2 ^ 32,
   (hs.g + st.g) % 2 ^ 32, (hs.h + st.h) % 2 ^ 32⟩

/-- The SHA-256 initial hash state, in decimal. -/
def initH : Hash8 :=
  ⟨1779033703, 3144134277, 1013904242, 2773480762, 1359893119, 2600822924,
   528734635, 1541459225⟩

/-- SHA-256 digest bytes of a byte-list message. -/
def sha256 (msg : List Nat) : List Nat :=
  let fin := (chunk16 (toWords (padMessage msg))).foldl compressBlock initH
  ([fin.a, fin.b, fin.c, fin.d, fin.e, fin.f, fin.g, fin.h].map (bytesBE 4)).flatten

/-- Lower-case hex digest of a byte list (hexdigest()). -/
def hexString (bs : List Nat) : String :=
  ⟨(bs.map (fun b => [hexDigit (b / 16), hexDigit (b % 16)])).flatten⟩

/-- reporter.stable_hash of src/src/reporter.py:
sha256(json.dumps(data, sort_keys=True, default=str).encode()).hexdigest().
default=str only affects values json cannot serialize natively, which do
not arise for Json-modelled data. -/
def stable_hash (data : Json) : String :=
  hexString (sha256 (utf8Encode (dumps_sorted data)))

/-- Logical identity of two serializable batches up to the insertion order
of dict keys: equal leaves, pointwise-related arrays, and objects whose
entry lists are permutations of each other (witnessed by an intermediate
reordering mid of the first object's entries that matches the second
pointwise), with the unique-key property every Python dict has.  This is
the precise sense in which two batches are "logically identical but built
with different key insertion orders". -/
inductive JEquiv : Json → Json → Prop where
  | null : JEquiv .null .null
  | bool (b : Bool) : JEquiv (.bool b) (.bool b)
  | num (n : Int) : JEquiv (.num n) (.num n)
  | str (s : String) : JEquiv (.str s) (.str s)
  | arr {es₁ es₂ : List Json} (hlen : es₁.length = es₂.length)
      (hpt : ∀ (i : Nat) (h₁ : i < es₁.length) (h₂ : i < es₂.length),
        JEquiv (es₁.get ⟨i, h₁⟩) (es₂.get ⟨i, h₂⟩)) :
      JEquiv (.arr es₁) (.arr es₂)
  | obj {l₁ l₂ mid : List (String × Json)} (hnd : (l₁.map Prod.fst).Nodup)
      (hperm : l₁.Perm mid) (hlen : mid.length = l₂.length)
      (hkeys : ∀ (i : Nat) (h₁ : i < mid.length) (h₂ : i < l₂.length),
        (mid.get ⟨i, h₁⟩).1 = (l₂.get ⟨i, h₂⟩).1)
      (hpt : ∀ (i : Nat) (h₁ : i < mid.length) (h₂ : i < l₂.length),
        JEquiv (mid.get ⟨i, h₁⟩).2 (l₂.get ⟨i, h₂⟩).2) :
      JEquiv (.obj l₁) (.obj l₂)

/- ===================== theorems: risk engine ===================== -/

/-- The severity weight and finding accumulated by the assess_exposure loop,
in closed form: the fold over open_ports equals the filterMap sum over the
MITRE table. -/
theorem foldl_assessStep_spec (op : List Nat) (ports : List Nat) :
    ∀ s fs rs,
      (ports.foldl (assessStep op) (s, fs, rs)).1 =
        s + (ports.filterMap
          (fun p => (MITRE_ATTACK_MAP.lookup p).map (fun m => risk_scores m.risk))).sum ∧
      (ports.foldl (assessStep op) (s, fs, rs)).2.1 =
        fs ++ ports.filterMap
          (fun p => (MITRE_ATTACK_MAP.lookup p).map
            (fun m => Finding.mk p m.technique m.tactic m.name m.risk)) := by
  induction ports with
  | nil => intro s fs rs; simp
  | cons p t ih =>
    intro s fs rs
    cases hm : MITRE_ATTACK_MAP.lookup p with
    | none =>
      have := ih s fs rs
      simp only [List.foldl_cons, assessStep, hm, List.filterMap_cons, Option.map_none']
      exact this
    | some m =>
      simp only [List.foldl_cons, assessStep, hm, List.filterMap_cons, Option.map_some']
      have := ih (s + risk_scores m.risk)
        (fs ++ [Finding.mk p m.technique m.tactic m.name m.risk])
        (rs ++ (if p = 3389 then ["Restrict RDP to VPN or jump host"]
          else if p = 22 then ["Implement SSH key authentication only"]
          else if p = 80 ∧ ¬ (443 ∈ op) then ["Redirect HTTP to HTTPS"]
          else if p = 445 then ["Restrict SMB to internal subnets only"]
          else []))
      refine ⟨?_, ?_⟩
      · rw [this.1, List.sum_cons]; omega
      · rw [this.2, List.append_assoc]; rfl

/-- The risk_score field of an assessment, independent of the evidence. -/
theorem assess_risk_score_eq (ip : String) (ports : List Nat) (ev : Option TriageData) :
    (assess_exposure ip ports ev).risk_score =
      (ports.foldl (assessStep ports) (0, [], [])).1 := by
  cases hv : (ev.getD emptyTriage).final_risk <;> simp [assess_exposure, hv]

/-- The mitre_findings field of an assessment, independent of the evidence. -/
theorem assess_mitre_findings_eq (ip : String) (ports : List Nat) (ev : Option TriageData) :
    (assess_exposure ip ports ev).mitre_findings =
      (ports.foldl (assessStep ports) (0, [], [])).2.1 := by
  cases hv : (ev.getD emptyTriage).final_risk <;> simp [assess_exposure, hv]

/-- The initial_risk field of an assessment: the compound override when both
3389 and 445 are open, otherwise the score threshold tier. -/
theorem assess_initial_risk_eq (ip : String) (ports : List Nat) (ev : Option TriageData) :
    (assess_exposure ip ports ev).initial_risk =
      (if 3389 ∈ ports ∧ 445 ∈ ports then "CRITICAL"
       else thresholdRisk (ports.foldl (assessStep ports) (0, [], [])).1) := by
  cases hv : (ev.getD emptyTriage).final_risk <;> simp [assess_exposure, hv]

/-- The recommendations field of an assessment: the loop's recommendations,
extended by the compound recommendation under the override. -/
theorem assess_recommendations_eq (ip : String) (ports : List Nat) (ev : Option TriageData) :
    (assess_exposure ip ports ev).recommendations =
      (if 3389 ∈ ports ∧ 445 ∈ ports then
        (ports.foldl (assessStep ports) (0, [], [])).2.2 ++
          ["CRITICAL: Both RDP and SMB exposed"]
       else (ports.foldl (assessStep ports) (0, [], [])).2.2) := by
  cases hv : (ev.getD emptyTriage).final_risk <;> simp [assess_exposure, hv]

/-- The network_segment field of an assessment, independent of the evidence. -/
theorem assess_network_segment_eq (ip : String) (ports : List Nat) (ev : Option TriageData) :
    (assess_exposure ip ports ev).network_segment = determine_network_segment ip := by
  cases hv : (ev.getD emptyTriage).final_risk <;> simp [assess_exposure, hv]

/-- C1: whenever both the remote-desktop port 3389 and the file-sharing
port 445 are among the open ports, assess_exposure reports
initial_risk = CRITICAL — for every ip, every further open port and every
accumulated score and evidence — and its recommendations contain the fixed
compound-exposure recommendation. -/
theorem assess_exposure_compound_critical (ip : String) (ports : List Nat)
    (ev : Option TriageData) (h1 : 3389 ∈ ports) (h2 : 445 ∈ ports) :
    (assess_exposure ip ports ev).initial_risk = "CRITICAL" ∧
    "CRITICAL: Both RDP and SMB exposed" ∈ (assess_exposure ip ports ev).recommendations := by
  have hc : 3389 ∈ ports ∧ 445 ∈ ports := ⟨h1, h2⟩
  rw [assess_initial_risk_eq, assess_recommendations_eq, if_pos hc, if_pos hc]
  exact ⟨rfl, List.mem_append_right _ (by simp)⟩

/-- Witness for C1 at a concrete host and port list. -/
theorem assess_exposure_compound_critical_witness :
    (assess_exposure "192.168.1.100" [3389, 445, 80] none).initial_risk = "CRITICAL" ∧
    "CRITICAL: Both RDP and SMB exposed" ∈
      (assess_exposure "192.168.1.100" [3389, 445, 80] none).recommendations :=
  assess_exposure_compound_critical "192.168.1.100" [3389, 445, 80] none
    (by decide) (by decide)

/-- C2 counterexample: an evidence dict that supplies final_risk together
with an empty adjustment_reason yields risk_adjusted = true with an empty
(present but empty-string) adjustment reason, refuting the claim that the
reason is always non-empty. -/
theorem assess_adjustment_reason_empty_cex :
    (assess_exposure "10.0.0.5" [22]
        (some ⟨none, none, none, some "LOW", some ""⟩)).risk_adjusted = true ∧
    (assess_exposure "10.0.0.5" [22]
        (some ⟨none, none, none, some "LOW", some ""⟩)).adjustment_reason = some "" := by
  exact ⟨rfl, rfl⟩

/-- C2 amended: true_risk equals initial_risk whenever risk_adjusted is
false; whenever risk_adjusted is true, adjustment_reason is present and
equals the evidence's adjustment_reason when supplied (else the fixed
default), and in particular is non-empty unless the evidence itself
supplied the empty string. -/
theorem assess_true_risk_invariant (ip : String) (ports : List Nat)
    (ev : Option TriageData) :
    ((assess_exposure ip ports ev).risk_adjusted = false →
      (assess_exposure ip ports ev).true_risk = (assess_exposure ip ports ev).initial_risk) ∧
    ((assess_exposure ip ports ev).risk_adjusted = true →
      (assess_exposure ip ports ev).adjustment_reason =
        some ((ev.getD emptyTriage).adjustment_reason.getD "Contextual triage applied")) ∧
    ((assess_exposure ip ports ev).risk_adjusted = true →
      (ev.getD emptyTriage).adjustment_reason ≠ some "" →
      (assess_exposure ip ports ev).adjustment_reason ≠ some "") := by
  cases hv : (ev.getD emptyTriage).final_risk with
  | none =>
    refine ⟨fun _ => ?_, fun hT => ?_, fun hT => ?_⟩
    · simp [assess_exposure, hv]
    · simp [assess_exposure, hv] at hT
    · simp [assess_exposure, hv] at hT
  | some fr =>
    refine ⟨fun hF => ?_, fun _ => ?_, fun _ hne => ?_⟩
    · simp [assess_exposure, hv] at hF
    · simp [assess_exposure, hv]
    · cases hr : (ev.getD emptyTriage).adjustment_reason with
      | none => simp [assess_exposure, hv, hr]
      | some r =>
        have hr' : r ≠ "" := fun h => hne (by rw [hr, h])
        simp [assess_exposure, hv, hr]
        exact hr'

/-- Witness for C2 amended: an evidence dict with a final_risk but no
adjustment_reason receives the fixed default reason. -/
theorem assess_true_risk_invariant_witness :
    (assess_exposure "10.0.0.5" [445]
        (some ⟨none, none, none, some "HIGH", none⟩)).adjustment_reason =
      some "Contextual triage applied" :=
  (assess_true_risk_invariant "10.0.0.5" [445]
      (some ⟨none, none, none, some "HIGH", none⟩)).2.1 (by decide)

/-- C3: risk_score is exactly the sum, over open ports present in
MITRE_ATTACK_MAP, of the weight of the port's base severity;
mitre_findings collects exactly the mapped ports' entries (a port absent
from the table yields no finding); and initial_risk is derived from
risk_score by the fixed thresholds, up to the compound-exposure override. -/
theorem assess_exposure_score_spec (ip : String) (ports : List Nat)
    (ev : Option TriageData) :
    (assess_exposure ip ports ev).risk_score =
      (ports.filterMap
        (fun p => (MITRE_ATTACK_MAP.lookup p).map (fun m => risk_scores m.risk))).sum ∧
    (assess_exposure ip ports ev).mitre_findings =
      ports.filterMap
        (fun p => (MITRE_ATTACK_MAP.lookup p).map
          (fun m => Finding.mk p m.technique m.tactic m.name m.risk)) ∧
    (∀ f ∈ (assess_exposure ip ports ev).mitre_findings,
      (MITRE_ATTACK_MAP.lookup f.port).isSome) ∧
    (¬ (3389 ∈ ports ∧ 445 ∈ ports) →
      (assess_exposure ip ports ev).initial_risk =
        thresholdRisk (assess_exposure ip ports ev).risk_score) := by
  have hspec := foldl_assessStep_spec ports ports 0 [] []
  have h1 : (assess_exposure ip ports ev).risk_score =
      (ports.filterMap
        (fun p => (MITRE_ATTACK_MAP.lookup p).map (fun m => risk_scores m.risk))).sum := by
    rw [assess_risk_score_eq, hspec.1]; omega
  have h2 : (assess_exposure ip ports ev).mitre_findings =
      ports.filterMap
        (fun p => (MITRE_ATTACK_MAP.lookup p).map
          (fun m => Finding.mk p m.technique m.tactic m.name m.risk)) := by
    rw [assess_mitre_findings_eq, hspec.2]; rfl
  refine ⟨h1, h2, ?_, ?_⟩
  · intro f hf
    rw [h2] at hf
    obtain ⟨p, _, hsome⟩ := List.mem_filterMap.mp hf
    obtain ⟨m, hm, hfm⟩ := Option.map_eq_some'.mp hsome
    rw [← hfm]
    simp [hm]
  · intro hno
    rw [assess_initial_risk_eq, if_neg hno, assess_risk_score_eq]

/-- Witness for C3 at a concrete port list: port 22 weighs 6, port 445
weighs 10, the unmapped port 9999 contributes nothing, and the threshold
tier for score 16 is CRITICAL (no compound override: 3389 is closed). -/
theorem assess_exposure_score_spec_witness :
    (assess_exposure "10.0.0.7" [22, 9999, 445] none).risk_score = 16 ∧
    (assess_exposure "10.0.0.7" [22, 9999, 445] none).initial_risk = "CRITICAL" ∧
    (∀ f ∈ (assess_exposure "10.0.0.7" [22, 9999, 445] none).mitre_findings,
      (MITRE_ATTACK_MAP.lookup f.port).isSome) := by
  have h := assess_exposure_score_spec "10.0.0.7" [22, 9999, 445] none
  refine ⟨?_, ?_, h.2.2.1⟩
  · rw [h.1]; decide
  · rw [h.2.2.2 (by decide), h.1]; decide

/-- C10: for a fixed ip and open-port list, the triage evidence never
influences the score-derived fields: any two evidence dicts give the same
risk_score, initial_risk, mitre_findings, recommendations, and
network_segment. -/
theorem assess_exposure_evidence_independent (ip : String) (ports : List Nat)
    (e₁ e₂ : Option TriageData) :
    (assess_exposure ip ports e₁).risk_score = (assess_exposure ip ports e₂).risk_score ∧
    (assess_exposure ip ports e₁).initial_risk = (assess_exposure ip ports e₂).initial_risk ∧
    (assess_exposure ip ports e₁).mitre_findings = (assess_exposure ip ports e₂).mitre_findings ∧
    (assess_exposure ip ports e₁).recommendations = (assess_exposure ip ports e₂).recommendations ∧
    (assess_exposure ip ports e₁).network_segment = (assess_exposure ip ports e₂).network_segment := by
  refine ⟨?_, ?_, ?_, ?_, ?_⟩
  · rw [assess_risk_score_eq, assess_risk_score_eq]
  · rw [assess_initial_risk_eq, assess_initial_risk_eq]
  · rw [assess_mitre_findings_eq, assess_mitre_findings_eq]
  · rw [assess_recommendations_eq, assess_recommendations_eq]
  · rw [assess_network_segment_eq, assess_network_segment_eq]

/- ===================== theorems: triage engine ===================== -/

/-- The default risk of the remote-shell port 22 is MEDIUM for every
address: 22 is in the medium-risk class and the internal downgrade only
applies to HIGH. -/
theorem default_risk_22 (ip : String) : default_risk 22 ip = "MEDIUM" := by
  simp [default_risk]

/-- The default risk of the file-sharing port 445: HIGH, downgraded to
MEDIUM on internal (private) networks. -/
theorem default_risk_445 (ip : String) :
    default_risk 445 ip =
      (if get_network_context ip = "Internal_Network" then "MEDIUM" else "HIGH") := by
  by_cases hc : get_network_context ip = "Internal_Network" <;> simp [default_risk, hc]

/-- C4 counterexample: on banner-acquisition failure (no banner), the
returned evidence still carries a final_risk (the locality default), so
final_risk is not absent as the claim states. -/
theorem triage_no_banner_final_risk_cex :
    (triage_service "8.8.8.8" 22 none).final_risk = some "MEDIUM" ∧
    (triage_service "8.8.8.8" 22 none).final_risk ≠ none := by
  exact ⟨rfl, by decide⟩

/-- C4 amended: when banner acquisition fails (connection failure, timeout
or socket error, all of which _grab_banner maps to None), triage_service
still returns normally, with the service identified, no banner recorded, no
banner-based adjustment (the reason stays at the initial-assessment
default), and final_risk set to the locality-only default classification of
the port. -/
theorem triage_service_no_banner (ip : String) (port : Nat) :
    (triage_service ip port none).banner = none ∧
    (triage_service ip port none).final_risk = some (default_risk port ip) ∧
    (triage_service ip port none).adjustment_reason = "Initial assessment" ∧
    (triage_service ip port none).service_guess = guess_service port ∧
    (triage_service ip port none).network_context = get_network_context ip ∧
    (triage_service ip port none).verification = "Port detection" :=
  ⟨rfl, rfl, rfl, rfl, rfl, rfl⟩

/-- C5 counterexample: a legacy-protocol banner (no modern SSH-2.0 marker)
on the remote-shell port of an external host is left at the MEDIUM default,
not classified HIGH as the claim states. -/
theorem triage_ssh_legacy_cex :
    (triage_service "8.8.8.8" 22 (some "SSH-1.99-OpenSSH_2.9")).final_risk =
      some "MEDIUM" ∧
    (triage_service "8.8.8.8" 22 (some "SSH-1.99-OpenSSH_2.9")).final_risk ≠
      some "HIGH" := by
  exact ⟨rfl, by decide⟩

/-- C5 amended: for a remote-shell (port 22) triage with an obtained
banner, a banner containing the modern marker SSH-2.0 yields MEDIUM on
Internal locality and HIGH otherwise (with the version-detected reason); a
banner without the modern marker (in particular any legacy-version banner)
triggers no adjustment and leaves final_risk at the locality default, which
for port 22 is MEDIUM regardless of locality. -/
theorem triage_ssh_banner_rule (ip b : String) (hb : b ≠ "") :
    (triage_service ip 22 (some b)).final_risk =
      some (if strIn "SSH-2.0" b then
              (if get_network_context ip = "Internal_Network" then "MEDIUM" else "HIGH")
            else "MEDIUM") ∧
    (strIn "SSH-2.0" b = true →
      (triage_service ip 22 (some b)).adjustment_reason = "SSH version detected") := by
  cases hs : strIn "SSH-2.0" b with
  | true =>
    by_cases hc : get_network_context ip = "Internal_Network" <;>
      simp [triage_service, hb, hs, hc]
  | false =>
    simp [triage_service, hb, hs, default_risk_22]

/-- Witness for C5 amended: a modern-marker banner on an external host is
classified HIGH. -/
theorem triage_ssh_banner_rule_witness :
    (triage_service "8.8.8.8" 22 (some "SSH-2.0-OpenSSH_9.6")).final_risk =
      some "HIGH" ∧
    (triage_service "8.8.8.8" 22 (some "SSH-2.0-OpenSSH_9.6")).adjustment_reason =
      "SSH version detected" := by
  have h := triage_ssh_banner_rule "8.8.8.8" "SSH-2.0-OpenSSH_9.6" (by decide)
  exact ⟨by rw [h.1]; rfl, h.2 (by decide)⟩

/-- C6 counterexample: a file-sharing (port 445) triage of a private
(internal) host is classified MEDIUM — below the HIGH minimum the claim
states — because the default HIGH is downgraded on internal networks. -/
theorem triage_smb_internal_cex :
    (triage_service "192.168.1.5" 445 none).final_risk = some "MEDIUM" ∧
    (triage_service "192.168.1.5" 445 none).final_risk ≠ some "HIGH" ∧
    (triage_service "192.168.1.5" 445 none).final_risk ≠ some "CRITICAL" := by
  exact ⟨rfl, by decide, by decide⟩

/-- C6 amended: every file-sharing (port 445) triage sets final_risk
independently of any banner content: HIGH for non-private (external or
unclassifiable) addresses, downgraded to MEDIUM for private — internal or
loopback — addresses. -/
theorem triage_smb_rule (ip : String) (bo : Option String) :
    (triage_service ip 445 bo).final_risk =
      some (if get_network_context ip = "Internal_Network" then "MEDIUM" else "HIGH") := by
  rw [← default_risk_445]
  cases bo with
  | none => rfl
  | some b =>
    by_cases hb : b = ""
    · simp [triage_service, hb]
    · simp [triage_service, hb]

/- ===================== theorems: scanner ===================== -/

/-- C8 counterexample: a requested port list holding the same port twice
yields that open port twice in the result — the result is sorted but not
deduplicated, refuting the claim for lists with duplicates. -/
theorem scan_host_duplicate_cex :
    scan_host (fun _ _ => true) "10.0.0.1" [80, 80] 0 [80, 80] = [80, 80] ∧
    ¬ (scan_host (fun _ _ => true) "10.0.0.1" [80, 80] 0 [80, 80]).Nodup := by
  exact ⟨rfl, by decide⟩

/-- C8 amended: for every probe-outcome oracle, ip, requested port list,
delay and completion order (a permutation of the requested list), the
open-port list returned by scan_host is sorted ascending, it is duplicate
free whenever the requested list is (duplicates in the request survive into
the result), and it does not depend on the completion order. -/
theorem scan_host_sorted_dedup (isOpen : String → Nat → Bool) (ip : String)
    (ports : List Nat) (delay : Rat) (completed : List Nat)
    (hperm : completed.Perm ports) :
    (scan_host isOpen ip ports delay completed).Sorted (· ≤ ·) ∧
    (ports.Nodup → (scan_host isOpen ip ports delay completed).Nodup) ∧
    (∀ completed₂, completed₂.Perm ports →
      scan_host isOpen ip ports delay completed =
        scan_host isOpen ip ports delay completed₂) := by
  refine ⟨List.sorted_insertionSort _ _, ?_, ?_⟩
  · intro hnd
    have hc : completed.Nodup := (hperm.nodup_iff).mpr hnd
    have hf : (completed.filter (isOpen ip)).Nodup := hc.filter _
    exact ((List.perm_insertionSort _ _).nodup_iff).mpr hf
  · intro completed₂ hperm₂
    apply List.eq_of_perm_of_sorted _ (List.sorted_insertionSort _ _)
      (List.sorted_insertionSort _ _)
    exact (List.perm_insertionSort _ _).trans
      (((hperm.trans hperm₂.symm).filter _).trans (List.perm_insertionSort _ _).symm)

/-- Witness for C8 amended at concrete data: two different completion
orders of the same scan produce the same sorted, duplicate-free result. -/
theorem scan_host_sorted_dedup_witness :
    (scan_host (fun _ _ => true) "10.0.0.1" [445, 22, 80] 0 [80, 445, 22]).Sorted (· ≤ ·) ∧
    (scan_host (fun _ _ => true) "10.0.0.1" [445, 22, 80] 0 [80, 445, 22]).Nodup ∧
    scan_host (fun _ _ => true) "10.0.0.1" [445, 22, 80] 0 [80, 445, 22] =
      scan_host (fun _ _ => true) "10.0.0.1" [445, 22, 80] 0 [22, 445, 80] := by
  have h := scan_host_sorted_dedup (fun _ _ => true) "10.0.0.1" [445, 22, 80] 0
    [80, 445, 22] (by decide)
  exact ⟨h.1, h.2.1 (by decide), h.2.2 [22, 445, 80] (by decide)⟩

/- ===================== theorems: CIDR resolution ===================== -/

/-- The usable-host list of a network of size at least 4 (every network of
prefix length at most 30) has exactly 2^(32-plen) - 2 elements: the full
range minus the network and broadcast addresses. -/
theorem length_hostsRange (net plen : Nat) (hp : plen ≤ 30) :
    (hostsRange net plen).length = 2 ^ (32 - plen) - 2 := by
  have h32 : plen ≠ 32 := by omega
  have h31 : plen ≠ 31 := by omega
  unfold hostsRange
  rw [if_neg h32, if_neg h31]
  have hk4 : 4 ≤ 2 ^ (32 - plen) := by
    calc (4 : Nat) = 2 ^ 2 := by norm_num
    _ ≤ 2 ^ (32 - plen) := Nat.pow_le_pow_right (by norm_num) (by omega)
  set k := 2 ^ (32 - plen) with hk
  rw [List.filter_map, List.length_map]
  have hsplit : List.range k =
      (List.range' 0 1 ++ List.range' 1 (k - 2)) ++ List.range' (k - 1) 1 := by
    rw [List.range'_append_1]
    have e1 : k - 1 = 0 + (k - 2 + 1) := by omega
    rw [e1, List.range'_append_1, List.range_eq_range']
    congr 1
    omega
  rw [hsplit, List.filter_append, List.filter_append]
  have h0 : List.filter ((fun a => decide (a ≠ net ∧ a ≠ net + k - 1)) ∘
      (fun i => net + i)) (List.range' 0 1) = [] := by
    simp
  have hmid : List.filter ((fun a => decide (a ≠ net ∧ a ≠ net + k - 1)) ∘
      (fun i => net + i)) (List.range' 1 (k - 2)) = List.range' 1 (k - 2) := by
    apply List.filter_eq_self.mpr
    intro a ha
    have hmem := List.mem_range'_1.mp ha
    simp only [Function.comp_apply, decide_eq_true_eq]
    omega
  have hlast : List.filter ((fun a => decide (a ≠ net ∧ a ≠ net + k - 1)) ∘
      (fun i => net + i)) (List.range' (k - 1) 1) = [] := by
    have he : List.range' (k - 1) 1 = [k - 1] := List.range'_one
    rw [he]
    have hd : ((fun a => decide (a ≠ net ∧ a ≠ net + k - 1)) ∘
        (fun i => net + i)) (k - 1) = false := by
      simp only [Function.comp_apply, decide_eq_false_iff_not]
      omega
    rw [List.filter_cons, hd]
    simp
  rw [h0, hmid, hlast, List.nil_append, List.append_nil, List.length_range']

/-- C9: the target resolver returns exactly 2^(32-plen) - 2 host address
strings for every CIDR string that parses to a network of prefix length at
most 30, and the empty list for every string on which the parse (and hence
Python's ip_network constructor) fails. -/
theorem validate_cidr_spec (s : String) :
    (∀ net plen, parseNetwork s = some (net, plen) → plen ≤ 30 →
      (validate_cidr s).length = 2 ^ (32 - plen) - 2) ∧
    (parseNetwork s = none → validate_cidr s = []) := by
  constructor
  · intro net plen hp hle
    unfold validate_cidr
    rw [hp, List.length_map]
    exact length_hostsRange net plen hle
  · intro hn
    unfold validate_cidr
    rw [hn]

/-- Witness for C9: a /24 resolves to 254 hosts; a malformed octet makes
the resolver return the empty list. -/
theorem validate_cidr_spec_witness :
    (validate_cidr "192.168.1.0/24").length = 254 ∧
    validate_cidr "999.168.1.0/24" = [] := by
  constructor
  · have h := (validate_cidr_spec "192.168.1.0/24").1 3232235776 24
      (by decide) (by decide)
    rw [h]
    norm_num
  · exact (validate_cidr_spec "999.168.1.0/24").2 (by decide)

/- ===================== theorems: stable content hash ===================== -/

/-- canonList is canon mapped over the elements. -/
theorem canonList_eq_map (es : List Json) : canonList es = es.map canon := by
  induction es with
  | nil => rfl
  | cons e t ih => simp [canonList, ih]

/-- canonEntries is canon mapped over the entry values. -/
theorem canonEntries_eq_map (l : List (String × Json)) :
    canonEntries l = l.map (fun p => (p.1, canon p.2)) := by
  induction l with
  | nil => rfl
  | cons p t ih => cases p with | mk k v => simp [canonEntries, ih]

/-- Canonicalizing an object's values leaves the key sequence unchanged. -/
theorem map_fst_canonEntries (l : List (String × Json)) :
    (canonEntries l).map Prod.fst = l.map Prod.fst := by
  rw [canonEntries_eq_map, List.map_map]
  rfl

/-- The second component of a pair is strictly smaller than the pair. -/
theorem snd_sizeOf_lt (p : String × Json) : sizeOf p.2 < sizeOf p := by
  cases p with | mk k v => simp

/-- Two key-sorted entry lists that are permutations of each other and have
duplicate-free keys are equal: key sorting of a dict's items is
order-canonical. -/
theorem sorted_keyLE_perm_eq :
    ∀ (u v : List (String × Json)), u.Perm v → List.Sorted keyLE u →
      List.Sorted keyLE v → (u.map Prod.fst).Nodup → u = v := by
  intro u
  induction u with
  | nil =>
    intro v hp _ _ _
    exact hp.nil_eq
  | cons a u' ih =>
    intro v hp hsu hsv hnd
    cases v with
    | nil => exact absurd hp.symm.nil_eq (by simp)
    | cons b v' =>
      by_cases hab : a = b
      · subst hab
        have hp' := hp.cons_inv
        have hnd' : (u'.map Prod.fst).Nodup := by
          simp only [List.map_cons, List.nodup_cons] at hnd
          exact hnd.2
        rw [ih v' hp' hsu.of_cons hsv.of_cons hnd']
      · exfalso
        have hav : a ∈ b :: v' := hp.subset (by simp)
        have hav' : a ∈ v' := by
          rcases List.mem_cons.mp hav with h | h
          · exact absurd h hab
          · exact h
        have hba : b ∈ a :: u' := hp.symm.subset (by simp)
        have hba' : b ∈ u' := by
          rcases List.mem_cons.mp hba with h | h
          · exact absurd h.symm hab
          · exact h
        have h1 : keyLE a b := (List.sorted_cons.mp hsu).1 b hba'
        have h2 : keyLE b a := (List.sorted_cons.mp hsv).1 a hav'
        have hkey : a.1 = b.1 := le_antisymm h1 h2
        have hmem : a.1 ∈ u'.map Prod.fst := by
          rw [hkey]
          exact List.mem_map_of_mem Prod.fst hba'
        simp only [List.map_cons, List.nodup_cons] at hnd
        exact hnd.1 hmem

/-- Sorting a dict's items by key gives the same list on every insertion
order of the (duplicate-free) keys. -/
theorem sortEntries_perm_eq (x y : List (String × Json)) (hp : x.Perm y)
    (hnd : (x.map Prod.fst).Nodup) : sortEntries x = sortEntries y := by
  apply sorted_keyLE_perm_eq
  · exact (List.perm_insertionSort keyLE x).trans
      (hp.trans (List.perm_insertionSort keyLE y).symm)
  · exact List.sorted_insertionSort keyLE x
  · exact List.sorted_insertionSort keyLE y
  · exact (((List.perm_insertionSort keyLE x).map Prod.fst).nodup_iff).mpr hnd

/-- Canonicalization identifies key-order-equivalent values (strong
induction on the size of the first value). -/
theorem canon_eq_of_jequiv_aux :
    ∀ (n : Nat) (a b : Json), sizeOf a ≤ n → JEquiv a b → canon a = canon b := by
  intro n
  induction n with
  | zero =>
    intro a b ha _
    exfalso
    cases a <;> simp at ha
  | succ n ih =>
    intro a b ha h
    cases h with
    | null => rfl
    | bool _ => rfl
    | num _ => rfl
    | str _ => rfl
    | arr hlen hpt =>
      rename_i es₁ es₂
      simp only [canon, canonList_eq_map]
      apply congrArg
      apply List.ext_get (by simp [hlen])
      intro i h₁ h₂
      have h₁' : i < es₁.length := by simpa using h₁
      have h₂' : i < es₂.length := by simpa using h₂
      simp only [List.get_eq_getElem, List.getElem_map]
      apply ih
      · have hm : sizeOf (es₁.get ⟨i, h₁'⟩) < sizeOf es₁ :=
          List.sizeOf_lt_of_mem (es₁.get_mem i h₁')
        simp only [List.get_eq_getElem] at hm
        simp only [Json.arr.sizeOf_spec] at ha
        omega
      · exact hpt i h₁' h₂'
    | obj hnd hperm hlen hkeys hpt =>
      rename_i l₁ l₂ mid
      simp only [canon]
      apply congrArg
      have hmid : canonEntries mid = canonEntries l₂ := by
        rw [canonEntries_eq_map, canonEntries_eq_map]
        apply List.ext_get (by simp [hlen])
        intro i h₁ h₂
        have h₁' : i < mid.length := by simpa using h₁
        have h₂' : i < l₂.length := by simpa using h₂
        simp only [List.get_eq_getElem, List.getElem_map, Prod.mk.injEq]
        refine ⟨hkeys i h₁' h₂', ?_⟩
        apply ih
        · have hmem : mid.get ⟨i, h₁'⟩ ∈ l₁ :=
            hperm.mem_iff.mpr (mid.get_mem i h₁')
          have hs1 : sizeOf (mid.get ⟨i, h₁'⟩) < sizeOf l₁ :=
            List.sizeOf_lt_of_mem hmem
          have hs2 : sizeOf (mid.get ⟨i, h₁'⟩).2 < sizeOf (mid.get ⟨i, h₁'⟩) :=
            snd_sizeOf_lt _
          simp only [List.get_eq_getElem] at hs1 hs2
          simp only [Json.obj.sizeOf_spec] at ha
          omega
        · exact hpt i h₁' h₂'
      have hpermC : (canonEntries l₁).Perm (canonEntries mid) := by
        rw [canonEntries_eq_map, canonEntries_eq_map]
        exact hperm.map _
      have hndC : ((canonEntries l₁).map Prod.fst).Nodup := by
        rw [map_fst_canonEntries]
        exact hnd
      calc sortEntries (canonEntries l₁) = sortEntries (canonEntries mid) :=
            sortEntries_perm_eq _ _ hpermC hndC
        _ = sortEntries (canonEntries l₂) := by rw [hmid]

/-- C7: the canonical serialization, and with it the baseline content hash,
is invariant under re-ordering of the keys of the assessment maps and of
all their nested map structures: key-order-equivalent batches serialize to
the same string and hash to the same digest. -/
theorem stable_hash_key_order_invariant (a b : Json) (h : JEquiv a b) :
    dumps_sorted a = dumps_sorted b ∧ stable_hash a = stable_hash b := by
  have hc : canon a = canon b := canon_eq_of_jequiv_aux (sizeOf a) a b le_rfl h
  constructor
  · unfold dumps_sorted
    rw [hc]
  · unfold stable_hash dumps_sorted
    rw [hc]

/-- Witness for C7: a two-field assessment fragment with its keys inserted
in the opposite order, and its nested context map also re-ordered, hashes
to the same digest. -/
theorem stable_hash_key_order_invariant_witness :
    stable_hash (Json.obj
      [("open_ports", Json.arr [Json.num 80, Json.num 445]),
       ("context", Json.obj
         [("network_segment", Json.str "User_Network"),
          ("asset_owner", Json.str "Unknown")])]) =
    stable_hash (Json.obj
      [("context", Json.obj
         [("asset_owner", Json.str "Unknown"),
          ("network_segment", Json.str "User_Network")]),
       ("open_ports", Json.arr [Json.num 80, Json.num 445])]) := by
  refine (stable_hash_key_order_invariant _ _ ?_).2
  refine JEquiv.obj (by decide)
    (List.Perm.swap
      ("context", Json.obj
        [("network_segment", Json.str "User_Network"),
         ("asset_owner", Json.str "Unknown")])
      ("open_ports", Json.arr [Json.num 80, Json.num 445]) []) rfl ?_ ?_
  · intro i h₁ h₂
    simp only [List.length_cons, List.length_nil] at h₁
    interval_cases i
    · rfl
    · rfl
  · intro i h₁ h₂
    simp only [List.length_cons, List.length_nil] at h₁
    interval_cases i
    · refine JEquiv.obj (by decide)
        (List.Perm.swap
          ("asset_owner", Json.str "Unknown")
          ("network_segment", Json.str "User_Network") []) rfl ?_ ?_
      · intro j hj₁ hj₂
        simp only [List.length_cons, List.length_nil] at hj₁
        interval_cases j
        · rfl
        · rfl
      · intro j hj₁ hj₂
        simp only [List.length_cons, List.length_nil] at hj₁
        interval_cases j
        · exact JEquiv.str "Unknown"
        · exact JEquiv.str "User_Network"
    · refine JEquiv.arr rfl ?_
      intro j hj₁ hj₂
      simp only [List.length_cons, List.length_nil] at hj₁
      interval_cases j
      · exact JEquiv.num 80
      · exact JEquiv.num 445

end SentinelSweep
